import Mathlib

/-!
Verification of the `TimeTracker` state machine from `src/extension.ts`.

Shallow embedding conventions:
- Wall-clock timestamps (`Date.now()`) are modelled as rationals measured in
  milliseconds; session durations (`currentSessionTime`, `lastSaveTime`,
  `totalTime`) are rationals measured in seconds, exactly as in the source
  (which divides millisecond differences by 1000).
- The host scheduler handles (`inactivityTimer`, `updateInterval`) are
  modelled by the information they carry: the absolute fire time of the
  pending inactivity timeout (`none` when not armed), and whether the
  periodic refresh interval is active.
- `context.subscriptions.push(textChange, selectionChange)` in
  `setupEventListeners` is modelled by a counter of registered listener
  pairs; listeners are never removed during the life of the instance.
- `context.globalState` is modelled as an association list from string keys
  to `WorkspaceStats`, with `update` prepending (lookup takes the first hit,
  which matches key-value overwrite observationally).
- Methods that mutate `this` become functions returning the updated
  `TimeTracker` record; `getStats` additionally returns the stats it read,
  since the source both returns a value and (lazily) mutates
  `this.lastSaveTime`.
- Purely presentational calls (`updateStatusBar`, `statusBarItem`) carry no
  tracked state beyond `formatTime`, which is embedded separately.
-/

/-- Persisted record, from `interface WorkspaceStats`:
`totalTime` in seconds, `lastSaveTime` a wall-clock timestamp. -/
structure WorkspaceStats where
  totalTime : ℚ
  lastSaveTime : ℚ
  deriving DecidableEq, Repr

/-- `context.globalState`: a key-value store from string keys to records. -/
abbrev Store : Type := List (String × WorkspaceStats)

/-- `globalState.get(key)`: first binding for the key, if any. -/
def Store.get : Store → String → Option WorkspaceStats
  | [], _ => none
  | (k, v) :: rest, key => if k = key then some v else Store.get rest key

/-- `globalState.update(key, value)`: bind the key (shadowing the previous
binding, which `Store.get` then never sees). -/
def Store.set (st : Store) (k : String) (v : WorkspaceStats) : Store :=
  (k, v) :: st

/-- In-memory state of the `TimeTracker` class. -/
structure TimeTracker where
  isTracking : Bool
  /-- `startTime`: ms timestamp of the start of the current tracking run. -/
  startTime : ℚ
  /-- `currentSessionTime`: accumulated seconds excluding the current run. -/
  currentSessionTime : ℚ
  /-- in-memory `lastSaveTime`: session-relative seconds at the last save. -/
  lastSaveTime : ℚ
  /-- pending inactivity timeout: absolute fire time in ms, `none` if unarmed. -/
  inactivityTimer : Option ℚ
  /-- whether the 1-second status-bar refresh interval is running. -/
  updateInterval : Bool
  /-- number of (text-change, selection-change) listener pairs pushed onto
  `context.subscriptions` by `setupEventListeners`. -/
  subscriptions : ℕ
  deriving DecidableEq, Repr

/-- Field initializers of the class, before the constructor body runs
(the constructor then calls `startTracking()`). -/
def initTracker : TimeTracker :=
  { isTracking := false, startTime := 0, currentSessionTime := 0,
    lastSaveTime := 0, inactivityTimer := none, updateInterval := false,
    subscriptions := 0 }

/-- `inactivityTimeout = 20 * 1000` (milliseconds). -/
def inactivityTimeout : ℚ := 20 * 1000

/-- `startTracking()`: no-op if already tracking; otherwise sets
`isTracking`, stamps `startTime = Date.now()`, registers a fresh listener
pair (`setupEventListeners`), and starts the refresh interval.  Note that it
does NOT touch `inactivityTimer`. -/
def startTracking (s : TimeTracker) (now : ℚ) : TimeTracker :=
  if s.isTracking then s
  else { s with isTracking := true, startTime := now,
                subscriptions := s.subscriptions + 1,
                updateInterval := true }

/-- `stopTracking()`: no-op if already paused; otherwise folds the elapsed
run into `currentSessionTime`, clears the inactivity timer and the refresh
interval. -/
def stopTracking (s : TimeTracker) (now : ℚ) : TimeTracker :=
  if s.isTracking then
    { s with isTracking := false,
             currentSessionTime :=
               s.currentSessionTime + (now - s.startTime) / 1000,
             inactivityTimer := none, updateInterval := false }
  else s

/-- `resetInactivityTimer()`: clear any pending timeout and arm a new one
for `inactivityTimeout` ms from now. -/
def resetInactivityTimer (s : TimeTracker) (now : ℚ) : TimeTracker :=
  { s with inactivityTimer := some (now + inactivityTimeout) }

/-- `onActivity()`: reset the inactivity timer (and refresh the display). -/
def onActivity (s : TimeTracker) (now : ℚ) : TimeTracker :=
  resetInactivityTimer s now

/-- Body of each listener registered by `setupEventListeners`: call
`onActivity()`, then `startTracking()` if not currently tracking. -/
def handleActivityEvent (s : TimeTracker) (now : ℚ) : TimeTracker :=
  let s1 := onActivity s now
  if s1.isTracking then s1 else startTracking s1 now

/-- Delivery of one qualifying editor event: the host invokes every
registered listener, i.e. one `handleActivityEvent` per listener pair. -/
def deliverActivityEvent (s : TimeTracker) (now : ℚ) : TimeTracker :=
  (fun st => handleActivityEvent st now)^[s.subscriptions] s

/-- Firing of the armed inactivity timeout: the host runs the scheduled
callback (`this.stopTracking()`) at its fire time, provided the timer is
armed and its fire time has been reached by `now`.  When no timer is armed,
the passage of time changes nothing. -/
def fireDueDeadline (s : TimeTracker) (now : ℚ) : TimeTracker :=
  match s.inactivityTimer with
  | some d => if d ≤ now then stopTracking s d else s
  | none => s

/-- The "current session elapsed time" quantity computed inline at several
places in the source (`saveStats`, `getStats`, `updateStatusBar`,
`showStatistics`): `currentSessionTime + (Date.now() - startTime) / 1000`
while tracking, else `currentSessionTime`. -/
def computeElapsed (s : TimeTracker) (now : ℚ) : ℚ :=
  if s.isTracking then s.currentSessionTime + (now - s.startTime) / 1000
  else s.currentSessionTime

/-- `getWorkspaceKey()`: `stats_` followed by the first workspace folder's
URI string, or `global` when no folder is open.  The workspace identity is
the parameter `wid : Option String` (the URI string, when a folder is
open). -/
def getWorkspaceKey (wid : Option String) : String :=
  "stats_" ++ wid.getD "global"

/-- `getStats()`: read the persisted record (zeroed default when absent);
lazily backfill the in-memory `lastSaveTime` with the current elapsed time
when it is still at its 0 sentinel.  Returns the record read and the
(possibly mutated) tracker. -/
def getStats (wid : Option String) (s : TimeTracker) (store : Store)
    (now : ℚ) : WorkspaceStats × TimeTracker :=
  let stats := (store.get (getWorkspaceKey wid)).getD ⟨0, 0⟩
  let s1 := if s.lastSaveTime = 0
    then { s with lastSaveTime := computeElapsed s now } else s
  (stats, s1)

/-- `saveStats()`: read the record via `getStats`, add the delta since the
last save to `totalTime`, stamp the persisted `lastSaveTime` with `now`,
advance the in-memory `lastSaveTime`, and write the record back.  The
`writeOk` flag models whether the fire-and-forget `globalState.update`
promise succeeds; the source never observes it. -/
def saveStats (wid : Option String) (s : TimeTracker) (store : Store)
    (now : ℚ) (writeOk : Bool) : TimeTracker × Store :=
  let key := getWorkspaceKey wid
  let res := getStats wid s store now
  let existingStats := res.1
  let s1 := res.2
  let currentTotalSessionTime := computeElapsed s1 now
  let timeSinceLastSave := currentTotalSessionTime - s1.lastSaveTime
  let newStats : WorkspaceStats :=
    { totalTime := existingStats.totalTime + timeSinceLastSave,
      lastSaveTime := now }
  let s2 := { s1 with lastSaveTime := currentTotalSessionTime }
  (s2, if writeOk then store.set key newStats else store)

/-- `resetStats()`: write a zeroed record stamped with `now`, zero the
in-memory session counters, and restart `startTime = now`.  `isTracking`
and the timers are untouched. -/
def resetStats (wid : Option String) (s : TimeTracker) (store : Store)
    (now : ℚ) : TimeTracker × Store :=
  ({ s with currentSessionTime := 0, lastSaveTime := 0, startTime := now },
   store.set (getWorkspaceKey wid) ⟨0, now⟩)

/-- Truncation toward zero on rationals, as JS arithmetic does in `%`. -/
def rtrunc (q : ℚ) : ℤ := if 0 ≤ q then ⌊q⌋ else ⌈q⌉

/-- JS remainder `a % b`: `a - b * trunc(a / b)`. -/
def jsMod (a b : ℚ) : ℚ := a - b * rtrunc (a / b)

/-- `padStart(2, '0')` on a decimal rendering. -/
def padStart2 (str : String) : String :=
  if str.length ≥ 2 then str
  else String.mk (List.replicate (2 - str.length) '0') ++ str

/-- `formatTime(seconds)`: `HH:MM:SS` with each field floored and padded to
width 2. -/
def formatTime (seconds : ℚ) : String :=
  let hours : ℤ := ⌊seconds / 3600⌋
  let minutes : ℤ := ⌊(jsMod seconds 3600) / 60⌋
  let secs : ℤ := ⌊jsMod seconds 60⌋
  padStart2 (toString hours) ++ ":" ++ padStart2 (toString minutes) ++ ":"
    ++ padStart2 (toString secs)

/-- External start/stop calls, for trace-based claims. -/
inductive TrkOp
  | start
  | stop
  deriving DecidableEq, Repr

/-- Apply one timed external call. -/
def applyOp (s : TimeTracker) : TrkOp → ℚ → TimeTracker
  | .start, t => startTracking s t
  | .stop, t => stopTracking s t

/-- Run a timed call trace left to right. -/
def runOps (s : TimeTracker) : List (TrkOp × ℚ) → TimeTracker
  | [] => s
  | (op, t) :: rest => runOps (applyOp s op t) rest

/-- The times of a trace are non-decreasing, starting no earlier than `t0`
and ending no later than `tEnd`. -/
def chronological : ℚ → List (TrkOp × ℚ) → ℚ → Prop
  | t0, [], tEnd => t0 ≤ tEnd
  | t0, (_, t) :: rest, tEnd => t0 ≤ t ∧ chronological t rest tEnd

/-- Number of calls in a trace that actually transition Paused → Tracking. -/
def countEffectiveStarts (s : TimeTracker) : List (TrkOp × ℚ) → ℕ
  | [] => 0
  | (op, t) :: rest =>
    (if op = .start ∧ s.isTracking = false then 1 else 0)
      + countEffectiveStarts (applyOp s op t) rest

/-- Hours component of `formatTime`. -/
def fmtHours (seconds : ℚ) : ℤ := ⌊seconds / 3600⌋

/-- Minutes component of `formatTime`. -/
def fmtMinutes (seconds : ℚ) : ℤ := ⌊(jsMod seconds 3600) / 60⌋

/-- Seconds component of `formatTime`. -/
def fmtSecs (seconds : ℚ) : ℤ := ⌊jsMod seconds 60⌋

/-- A string that can be the `toString` of a `vscode.Uri`: such strings
always contain the scheme separator `:` (`scheme://authority/path`), which
the sentinel `global` does not. -/
def UriLike (wid : Option String) : Prop :=
  ∀ u, wid = some u → ':' ∈ u.data

theorem formatTime_eq (seconds : ℚ) :
    formatTime seconds = padStart2 (toString (fmtHours seconds)) ++ ":"
      ++ padStart2 (toString (fmtMinutes seconds)) ++ ":"
      ++ padStart2 (toString (fmtSecs seconds)) := rfl

theorem formatTime_zero : formatTime 0 = "00:00:00" := by
  have h1 : fmtHours 0 = 0 := by norm_num [fmtHours]
  have h2 : fmtMinutes 0 = 0 := by norm_num [fmtMinutes, jsMod, rtrunc]
  have h3 : fmtSecs 0 = 0 := by norm_num [fmtSecs, jsMod, rtrunc]
  rw [formatTime_eq, h1, h2, h3]
  decide

theorem formatTime_3661 : formatTime 3661 = "01:01:01" := by
  have h1 : fmtHours 3661 = 1 := by norm_num [fmtHours]
  have hm : jsMod 3661 3600 = 61 := by
    simp only [jsMod, rtrunc]
    norm_num
  have hs : jsMod 3661 60 = 1 := by
    simp only [jsMod, rtrunc]
    norm_num
  have h2 : fmtMinutes 3661 = 1 := by norm_num [fmtMinutes, hm]
  have h3 : fmtSecs 3661 = 1 := by norm_num [fmtSecs, hs]
  rw [formatTime_eq, h1, h2, h3]
  decide

theorem formatTime_360000 : formatTime 360000 = "100:00:00" := by
  have h1 : fmtHours 360000 = 100 := by norm_num [fmtHours]
  have hm : jsMod 360000 3600 = 0 := by
    simp only [jsMod, rtrunc]
    norm_num
  have hs : jsMod 360000 60 = 0 := by
    simp only [jsMod, rtrunc]
    norm_num
  have h2 : fmtMinutes 360000 = 0 := by norm_num [fmtMinutes, hm]
  have h3 : fmtSecs 360000 = 0 := by norm_num [fmtSecs, hs]
  rw [formatTime_eq, h1, h2, h3]
  decide

/-- C7: `startTracking()` while already tracking, and `stopTracking()` while
already paused, are no-ops: the first line of each method returns early, so
every in-memory field (including both timer handles and the listener
counter) is unchanged, and no error is raised (the operations are total).
Neither method reads or writes the persistent store, as reflected in their
types, so the persisted record is untouched. -/
theorem redundant_calls_noop (s : TimeTracker) (t : ℚ) :
    (s.isTracking = true → startTracking s t = s) ∧
    (s.isTracking = false → stopTracking s t = s) := by
  constructor <;> intro h <;> simp [startTracking, stopTracking, h]

/-- C7 witness: concrete redundant calls on a tracking and on a paused
state. -/
theorem redundant_calls_noop_witness :
    startTracking { initTracker with isTracking := true } 5
        = { initTracker with isTracking := true }
      ∧ stopTracking initTracker 7 = initTracker :=
  ⟨(redundant_calls_noop { initTracker with isTracking := true } 5).1 rfl,
   (redundant_calls_noop initTracker 7).2 rfl⟩

/-- C1 counterexample: `startTracking()` does not arm the inactivity
deadline (`resetInactivityTimer` is only reached from `onActivity`).  After
`start()` at t=0 with no activity signal, no timeout is pending, so nothing
can fire by t=20s and the tracker is still `Tracking` — not `Paused` as the
claim states. -/
theorem start_without_activity_never_pauses :
    (startTracking initTracker 0).inactivityTimer = none
      ∧ fireDueDeadline (startTracking initTracker 0) 20000
          = startTracking initTracker 0
      ∧ (fireDueDeadline (startTracking initTracker 0) 20000).isTracking
          = true := by
  refine ⟨rfl, rfl, rfl⟩

/-- C1 amended: the inactivity deadline is armed only by `onActivity()`,
never by `start()` itself.  After an `onActivity()` at time `a` on a
tracking state: the deadline is armed for `a + 20s`; if no further activity
occurs, at that instant it fires `stop()`, the state becomes `Paused`, and
`currentSessionTime` equals the elapsed run; a single `onActivity()` at any
time `b` before the deadline replaces the pending timeout with a fresh
20-second window from `b`. -/
theorem inactivity_deadline_spec (s : TimeTracker) (a b t : ℚ)
    (htrack : s.isTracking = true) :
    (startTracking s t).inactivityTimer = s.inactivityTimer
      ∧ (onActivity s a).inactivityTimer = some (a + inactivityTimeout)
      ∧ fireDueDeadline (onActivity s a) (a + inactivityTimeout)
          = stopTracking (onActivity s a) (a + inactivityTimeout)
      ∧ (fireDueDeadline (onActivity s a) (a + inactivityTimeout)).isTracking
          = false
      ∧ (fireDueDeadline (onActivity s a)
            (a + inactivityTimeout)).currentSessionTime
          = s.currentSessionTime + (a + inactivityTimeout - s.startTime) / 1000
      ∧ (onActivity (onActivity s a) b).inactivityTimer
          = some (b + inactivityTimeout) := by
  refine ⟨by simp [startTracking, htrack], rfl, ?_, ?_, ?_, rfl⟩
  · simp [fireDueDeadline, onActivity, resetInactivityTimer]
  · simp [fireDueDeadline, onActivity, resetInactivityTimer, stopTracking,
      htrack]
  · simp [fireDueDeadline, onActivity, resetInactivityTimer, stopTracking,
      htrack]

/-- C1 witness: the amended behaviour at a concrete tracking state, with
activity at t=0ms. -/
theorem inactivity_deadline_spec_witness :
    (onActivity { initTracker with isTracking := true } 0).inactivityTimer
        = some (0 + inactivityTimeout)
      ∧ (fireDueDeadline (onActivity { initTracker with isTracking := true } 0)
            (0 + inactivityTimeout)).isTracking = false :=
  ⟨(inactivity_deadline_spec { initTracker with isTracking := true }
      0 19000 3 rfl).2.1,
   (inactivity_deadline_spec { initTracker with isTracking := true }
      0 19000 3 rfl).2.2.2.1⟩

/-- C2 counterexample: with tracking started at t=0 and no prior save, the
first `saveStats()` at t=10s leaves the persisted `totalTime` at 0, not 10:
`saveStats` reads the record through `getStats`, whose lazy backfill sets
the in-memory `lastSaveTime` baseline to the current elapsed time (10s)
before the delta `currentTotalSessionTime - lastSaveTime` is computed, so
the delta is 0. -/
theorem first_save_adds_zero :
    ((((saveStats none (startTracking initTracker 0) [] 10000 true).2).get
        (getWorkspaceKey none)).getD ⟨0, 0⟩).totalTime = 0 := by
  simp [saveStats, getStats, startTracking, initTracker, computeElapsed,
    Store.set, Store.get]

/-- C2 amended: with tracking started at t=0 and no prior save, the first
`save()` at t=10s adds ZERO to the persisted `totalTime` (the lazy
`lastSaveTime` backfill in `getStats` swallows the whole first interval)
while advancing the in-memory baseline to 10s; after `stop()` at t=10s, a
second `save()` at t=15s leaves the persisted `totalTime` unchanged (no
accrual while `Paused`). -/
theorem end_to_end_save_trace :
    (((saveStats none (startTracking initTracker 0) [] 10000 true).2.get
        (getWorkspaceKey none)).getD ⟨0, 0⟩).totalTime = 0
      ∧ (saveStats none (startTracking initTracker 0) [] 10000 true).1.lastSaveTime
          = 10
      ∧ (((saveStats none
            (stopTracking
              (saveStats none (startTracking initTracker 0) [] 10000 true).1
              10000)
            (saveStats none (startTracking initTracker 0) [] 10000 true).2
            15000 true).2.get (getWorkspaceKey none)).getD ⟨0, 0⟩).totalTime
          = (((saveStats none (startTracking initTracker 0) [] 10000
                true).2.get (getWorkspaceKey none)).getD ⟨0, 0⟩).totalTime := by
  refine ⟨?_, ?_, ?_⟩ <;>
    simp [saveStats, getStats, startTracking, stopTracking, initTracker,
      computeElapsed, Store.set, Store.get] <;> norm_num

/-- C3 counterexample: the source fires `globalState.update` and never
observes its result, and it advances the in-memory `lastSaveTime` baseline
(line `this.lastSaveTime = currentTotalSessionTime`) before the write.  At
a concrete state (tracking from t=0, baseline 5s) saved at t=10s with the
write failing: nothing is persisted, no failure is surfaced (the method
returns normally), yet the baseline has advanced from 5 to 10 — so the
unsaved 5-second delta is NOT included in the next save, contradicting the
claim. -/
theorem failed_write_advances_baseline :
    (saveStats none
        { initTracker with isTracking := true, startTime := 0,
                           lastSaveTime := 5 }
        [] 10000 false).1.lastSaveTime = 10
      ∧ (saveStats none
          { initTracker with isTracking := true, startTime := 0,
                             lastSaveTime := 5 }
          [] 10000 false).2 = [] := by
  constructor <;>
    simp [saveStats, getStats, initTracker, computeElapsed, Store.get] <;>
    norm_num

/-- C3 amended: `saveStats` ignores the outcome of the persistent-store
write (fire-and-forget): the resulting in-memory tracker is identical
whether the write succeeds or fails, no failure is surfaced to the caller,
the `lastSaveTime` baseline is advanced to the current elapsed time
unconditionally, and on failure the store is simply left unchanged — the
unsaved delta is lost from the next save's computation. -/
theorem saveStats_ignores_write_outcome (wid : Option String)
    (s : TimeTracker) (store : Store) (now : ℚ) :
    (saveStats wid s store now false).1 = (saveStats wid s store now true).1
      ∧ (saveStats wid s store now false).2 = store
      ∧ (saveStats wid s store now false).1.lastSaveTime
          = computeElapsed (getStats wid s store now).2 now := by
  refine ⟨rfl, rfl, rfl⟩

/-- C4: for every tracker state and store, a second `saveStats()` at the
same instant as a first adds zero additional delta to the persisted
`totalTime`: the first save set the in-memory `lastSaveTime` baseline to
the current elapsed time, so the second save's
`currentTotalSessionTime - lastSaveTime` is zero. -/
theorem saveStats_idempotent (wid : Option String) (s : TimeTracker)
    (store : Store) (now : ℚ) :
    ((((saveStats wid (saveStats wid s store now true).1
          (saveStats wid s store now true).2 now true).2).get
        (getWorkspaceKey wid)).getD ⟨0, 0⟩).totalTime
      = ((((saveStats wid s store now true).2).get
          (getWorkspaceKey wid)).getD ⟨0, 0⟩).totalTime := by
  simp [saveStats, getStats, Store.set, Store.get, computeElapsed]

/-- C8: immediately after `resetStats()` at time `now`: the record read by
`getStats` has `totalTime = 0`; the current session elapsed time is 0; the
persisted record is `{totalTime := 0, lastSaveTime := now}`; the in-memory
`currentSessionTime` and `lastSaveTime` are zero and `startTime = now`; and
the `Tracking`/`Paused` state (and pending timers) are unchanged. -/
theorem resetStats_spec (wid : Option String) (s : TimeTracker)
    (store : Store) (now : ℚ) :
    (getStats wid (resetStats wid s store now).1
        (resetStats wid s store now).2 now).1.totalTime = 0
      ∧ computeElapsed (resetStats wid s store now).1 now = 0
      ∧ ((resetStats wid s store now).2).get (getWorkspaceKey wid)
          = some ⟨0, now⟩
      ∧ (resetStats wid s store now).1.currentSessionTime = 0
      ∧ (resetStats wid s store now).1.lastSaveTime = 0
      ∧ (resetStats wid s store now).1.startTime = now
      ∧ (resetStats wid s store now).1.isTracking = s.isTracking
      ∧ (resetStats wid s store now).1.inactivityTimer = s.inactivityTimer := by
  simp [resetStats, getStats, computeElapsed, Store.set, Store.get]

theorem getWorkspaceKey_inj (A B : Option String)
    (hA : UriLike A) (hB : UriLike B) (hne : A ≠ B) :
    getWorkspaceKey A ≠ getWorkspaceKey B := by
  intro h
  apply hne
  have hdata : ("stats_" ++ A.getD "global").data
      = ("stats_" ++ B.getD "global").data := congrArg String.data h
  rw [String.data_append, String.data_append] at hdata
  have htail : (A.getD "global").data = (B.getD "global").data :=
    List.append_cancel_left hdata
  have heq : A.getD "global" = B.getD "global" := String.ext htail
  match A, B with
  | none, none => rfl
  | some a, none =>
    exfalso
    have ha : ':' ∈ a.data := hA a rfl
    have : a = "global" := heq
    rw [this] at ha
    revert ha
    decide
  | none, some b =>
    exfalso
    have hb : ':' ∈ b.data := hB b rfl
    have : "global" = b := heq
    rw [← this] at hb
    revert hb
    decide
  | some a, some b =>
    have : a = b := heq
    rw [this]

/-- C9: persisted records are partitioned by workspace identity (the first
folder URI, or the `global` sentinel when no folder is open).  For two
distinct identities — where any open-folder identity is the `toString` of a
`vscode.Uri` and hence contains the scheme separator `:` — a `resetStats()`
write under identity A leaves identity B's stored record, and in particular
its `totalTime`, unchanged. -/
theorem workspace_partition (A B : Option String) (s : TimeTracker)
    (store : Store) (now : ℚ) (hA : UriLike A) (hB : UriLike B)
    (hne : A ≠ B) :
    ((resetStats A s store now).2).get (getWorkspaceKey B)
        = store.get (getWorkspaceKey B)
      ∧ ((((resetStats A s store now).2).get (getWorkspaceKey B)).getD
            ⟨0, 0⟩).totalTime
          = ((store.get (getWorkspaceKey B)).getD ⟨0, 0⟩).totalTime := by
  have hkey : getWorkspaceKey A ≠ getWorkspaceKey B :=
    getWorkspaceKey_inj A B hA hB hne
  constructor
  · simp [resetStats, Store.set, Store.get, hkey]
  · simp [resetStats, Store.set, Store.get, hkey]

/-- C9 witness: resetting workspace `file:///a` leaves the record stored
for workspace `file:///b` intact. -/
theorem workspace_partition_witness :
    ((resetStats (some "file:///a") initTracker
        [(getWorkspaceKey (some "file:///b"), ⟨7, 3⟩)] 0).2).get
      (getWorkspaceKey (some "file:///b")) = some ⟨7, 3⟩ := by
  have h := workspace_partition (some "file:///a") (some "file:///b")
    initTracker [(getWorkspaceKey (some "file:///b"), ⟨7, 3⟩)] 0
    (fun u hu => by
      obtain rfl : u = "file:///a" := (Option.some.inj hu).symm
      decide)
    (fun u hu => by
      obtain rfl : u = "file:///b" := (Option.some.inj hu).symm
      decide)
    (by decide)
  rw [h.1]
  simp [Store.get]

theorem computeElapsed_time_mono (s : TimeTracker) {t t' : ℚ} (h : t ≤ t') :
    computeElapsed s t ≤ computeElapsed s t' := by
  unfold computeElapsed
  split
  · have : (t - s.startTime) / 1000 ≤ (t' - s.startTime) / 1000 := by
      apply div_le_div_of_nonneg_right ?_ ?_ <;> first | linarith | norm_num
    linarith
  · exact le_refl _

theorem applyOp_elapsed (s : TimeTracker) (op : TrkOp) (t : ℚ) :
    computeElapsed (applyOp s op t) t = computeElapsed s t := by
  cases op <;>
    simp [applyOp, startTracking, stopTracking, computeElapsed] <;>
    split <;> simp_all

theorem runOps_elapsed_mono :
    ∀ (ops : List (TrkOp × ℚ)) (s : TimeTracker) (t0 tEnd : ℚ),
      chronological t0 ops tEnd →
      computeElapsed s t0 ≤ computeElapsed (runOps s ops) tEnd
  | [], s, t0, tEnd, h => computeElapsed_time_mono s h
  | (op, t) :: rest, s, t0, tEnd, h => by
    obtain ⟨h1, h2⟩ := h
    calc computeElapsed s t0 ≤ computeElapsed s t :=
          computeElapsed_time_mono s h1
      _ = computeElapsed (applyOp s op t) t := (applyOp_elapsed s op t).symm
      _ ≤ computeElapsed (runOps (applyOp s op t) rest) tEnd :=
          runOps_elapsed_mono rest (applyOp s op t) t tEnd h2

/-- C6: over any chronological sequence of `start()`/`stop()` calls, the
current session elapsed time (`currentSessionTime + (now - startTime)/1000`
while tracking, else `currentSessionTime`) is monotonically non-decreasing:
its value at the observation time after running the trace is at least its
value at the initial time.  Redundant (no-op) calls are included, since a
trace may contain `start` while tracking and `stop` while paused; only
`resetStats`, which is not a trace operation, resets the quantity. -/
theorem computeElapsed_mono (ops : List (TrkOp × ℚ)) (s : TimeTracker)
    (t0 tEnd : ℚ) (h : chronological t0 ops tEnd) :
    computeElapsed s t0 ≤ computeElapsed (runOps s ops) tEnd :=
  runOps_elapsed_mono ops s t0 tEnd h

/-- C6 witness: a concrete trace with redundant calls — start at 1s, a
redundant start at 2s, stop at 3s, a redundant stop at 4s — observed from
t=0 to t=6s. -/
theorem computeElapsed_mono_witness :
    chronological 0
        [(.start, 1000), (.start, 2000), (.stop, 3000), (.stop, 4000)] 6000
      ∧ computeElapsed initTracker 0
          ≤ computeElapsed
              (runOps initTracker
                [(.start, 1000), (.start, 2000), (.stop, 3000),
                 (.stop, 4000)]) 6000 := by
  have hch : chronological 0
      [(.start, 1000), (.start, 2000), (.stop, 3000), (.stop, 4000)] 6000 := by
    simp [chronological]
    norm_num
  exact ⟨hch, computeElapsed_mono _ initTracker 0 6000 hch⟩

theorem runOps_subscriptions :
    ∀ (ops : List (TrkOp × ℚ)) (s : TimeTracker),
      (runOps s ops).subscriptions
        = s.subscriptions + countEffectiveStarts s ops
  | [], s => rfl
  | (op, t) :: rest, s => by
    rw [runOps, countEffectiveStarts, runOps_subscriptions rest]
    cases op <;> simp [applyOp, startTracking, stopTracking] <;> split <;>
      simp_all <;> omega

theorem handleActivityEvent_timer (st : TimeTracker) (now : ℚ) :
    (handleActivityEvent st now).inactivityTimer
      = some (now + inactivityTimeout) := by
  simp only [handleActivityEvent, onActivity, resetInactivityTimer,
    startTracking]
  split <;> simp

/-- C10: every effective `startTracking()` call (one that transitions
Paused → Tracking) runs `setupEventListeners`, which pushes a fresh
(text-change, selection-change) listener pair onto `context.subscriptions`
without removing the previously registered ones: after a trace, the number
of registered pairs equals the initial count plus the number of effective
starts in the trace (`stopTracking` never removes any).  Each registered
pair independently invokes `onActivity` on a qualifying event: delivering a single
activity event to a tracker holding at least one pair re-arms the
inactivity deadline. -/
theorem subscriptions_accumulate (s : TimeTracker) :
    (∀ ops : List (TrkOp × ℚ),
        (runOps s ops).subscriptions
          = s.subscriptions + countEffectiveStarts s ops)
      ∧ (∀ t, (stopTracking s t).subscriptions = s.subscriptions)
      ∧ (∀ now : ℚ, 1 ≤ s.subscriptions →
          (deliverActivityEvent s now).inactivityTimer
            = some (now + inactivityTimeout)) := by
  refine ⟨fun ops => runOps_subscriptions ops s, ?_, ?_⟩
  · intro t
    simp [stopTracking]
    split <;> simp
  · intro now hsub
    obtain ⟨m, hm⟩ : ∃ m, s.subscriptions = m + 1 :=
      ⟨s.subscriptions - 1, by omega⟩
    simp only [deliverActivityEvent, hm, Function.iterate_succ',
      Function.comp_apply]
    exact handleActivityEvent_timer _ now

/-- C10 witness: starting from the initial state, the trace
stop–start–stop–start performs two effective Paused → Tracking transitions
and accumulates two listener pairs; delivering an activity event then
re-arms the deadline. -/
theorem subscriptions_accumulate_witness :
    (runOps initTracker
        [(.stop, 1000), (.start, 2000), (.stop, 3000),
         (.start, 4000)]).subscriptions = 2
      ∧ (deliverActivityEvent
            (runOps initTracker
              [(.stop, 1000), (.start, 2000), (.stop, 3000),
               (.start, 4000)]) 5000).inactivityTimer
          = some (5000 + inactivityTimeout) := by
  have h1 := (subscriptions_accumulate initTracker).1
    [(.stop, 1000), (.start, 2000), (.stop, 3000), (.start, 4000)]
  have hcount : initTracker.subscriptions
      + countEffectiveStarts initTracker
          [(.stop, 1000), (.start, 2000), (.stop, 3000), (.start, 4000)]
      = 2 := by
    simp [countEffectiveStarts, applyOp, startTracking, stopTracking,
      initTracker]
  have hsubs := h1.trans hcount
  refine ⟨hsubs, ?_⟩
  have h2 := (subscriptions_accumulate
      (runOps initTracker
        [(.stop, 1000), (.start, 2000), (.stop, 3000),
         (.start, 4000)])).2.2 5000 (by rw [hsubs]; norm_num)
  exact h2

theorem floor_div_natCast (a : ℚ) (n : ℕ) (hn : 0 < n) :
    ⌊a / (n : ℚ)⌋ = ⌊a⌋ / (n : ℤ) := by
  have hq : (0:ℚ) < (n:ℚ) := by exact_mod_cast hn
  have hz : (0:ℤ) < (n:ℤ) := by exact_mod_cast hn
  have key : ∀ z : ℤ, z ≤ ⌊a / (n:ℚ)⌋ ↔ z ≤ ⌊a⌋ / (n:ℤ) := by
    intro z
    rw [Int.le_floor, le_div_iff₀ hq, Int.le_ediv_iff_mul_le hz, Int.le_floor]
    norm_cast
  exact le_antisymm ((key _).mp le_rfl) ((key _).mpr le_rfl)

theorem rtrunc_of_nonneg {q : ℚ} (h : 0 ≤ q) : rtrunc q = ⌊q⌋ := by
  simp [rtrunc, h]

theorem jsMod_eq_of_nonneg {a b : ℚ} (ha : 0 ≤ a) (hb : 0 < b) :
    jsMod a b = a - b * ⌊a / b⌋ := by
  rw [jsMod, rtrunc_of_nonneg (div_nonneg ha hb.le)]

theorem jsMod_nonneg {a b : ℚ} (ha : 0 ≤ a) (hb : 0 < b) : 0 ≤ jsMod a b := by
  rw [jsMod_eq_of_nonneg ha hb, mul_comm]
  exact Int.sub_floor_div_mul_nonneg a hb

theorem jsMod_lt {a b : ℚ} (ha : 0 ≤ a) (hb : 0 < b) : jsMod a b < b := by
  rw [jsMod_eq_of_nonneg ha hb, mul_comm]
  exact Int.sub_floor_div_mul_lt a hb

theorem floor_div_3600 (a : ℚ) : ⌊a / 3600⌋ = ⌊a⌋ / 3600 := by
  have h := floor_div_natCast a 3600 (by norm_num)
  push_cast at h
  exact h

theorem floor_div_60 (a : ℚ) : ⌊a / 60⌋ = ⌊a⌋ / 60 := by
  have h := floor_div_natCast a 60 (by norm_num)
  push_cast at h
  exact h

theorem fmtMinutes_bounds {s : ℚ} (hs : 0 ≤ s) :
    0 ≤ fmtMinutes s ∧ fmtMinutes s ≤ 59 := by
  have h0 : 0 ≤ jsMod s 3600 := jsMod_nonneg hs (by norm_num)
  have h1 : jsMod s 3600 < 3600 := jsMod_lt hs (by norm_num)
  constructor
  · exact Int.floor_nonneg.mpr (by positivity)
  · have h2 : fmtMinutes s < 60 := by
      apply Int.floor_lt.mpr
      push_cast
      rw [div_lt_iff₀ (by norm_num : (0:ℚ) < 60)]
      linarith
    omega

theorem fmtSecs_bounds {s : ℚ} (hs : 0 ≤ s) :
    0 ≤ fmtSecs s ∧ fmtSecs s ≤ 59 := by
  have h0 : 0 ≤ jsMod s 60 := jsMod_nonneg hs (by norm_num)
  have h1 : jsMod s 60 < 60 := jsMod_lt hs (by norm_num)
  constructor
  · exact Int.floor_nonneg.mpr h0
  · have h2 : fmtSecs s < 60 := by
      apply Int.floor_lt.mpr
      push_cast
      linarith
    omega

theorem fmtHours_nonneg {s : ℚ} (hs : 0 ≤ s) : 0 ≤ fmtHours s :=
  Int.floor_nonneg.mpr (by positivity)

theorem fmtHours_trunc (s : ℚ) :
    fmtHours ((⌊s⌋ : ℤ) : ℚ) = fmtHours s := by
  unfold fmtHours
  rw [floor_div_3600, floor_div_3600, Int.floor_intCast]

theorem fmtMinutes_trunc {s : ℚ} (hs : 0 ≤ s) :
    fmtMinutes ((⌊s⌋ : ℤ) : ℚ) = fmtMinutes s := by
  have hsf : (0:ℚ) ≤ (⌊s⌋ : ℚ) := by
    exact_mod_cast Int.floor_nonneg.mpr hs
  unfold fmtMinutes
  rw [jsMod_eq_of_nonneg hs (by norm_num), jsMod_eq_of_nonneg hsf (by norm_num),
    floor_div_3600, floor_div_3600, Int.floor_intCast]
  have hcast : ((3600:ℚ)) * ((⌊s⌋ / 3600 : ℤ) : ℚ) = (((3600 * (⌊s⌋ / 3600) : ℤ)) : ℚ) := by
    push_cast
    ring
  rw [hcast]
  rw [show ((⌊s⌋:ℤ):ℚ) - ((3600 * (⌊s⌋ / 3600) : ℤ) : ℚ) = (((⌊s⌋ - 3600 * (⌊s⌋ / 3600) : ℤ)) : ℚ) by push_cast; ring]
  rw [floor_div_60, floor_div_60, Int.floor_sub_int, Int.floor_intCast]

theorem fmtSecs_trunc {s : ℚ} (hs : 0 ≤ s) :
    fmtSecs ((⌊s⌋ : ℤ) : ℚ) = fmtSecs s := by
  have hsf : (0:ℚ) ≤ (⌊s⌋ : ℚ) := by
    exact_mod_cast Int.floor_nonneg.mpr hs
  unfold fmtSecs
  rw [jsMod_eq_of_nonneg hs (by norm_num), jsMod_eq_of_nonneg hsf (by norm_num),
    floor_div_60, floor_div_60, Int.floor_intCast]
  rw [show ((60:ℚ)) * ((⌊s⌋ / 60 : ℤ) : ℚ) = (((60 * (⌊s⌋ / 60) : ℤ)) : ℚ) by push_cast; ring]
  rw [Int.floor_sub_int, Int.floor_intCast, Int.floor_sub_int]

/-- C5: `formatTime` integer-truncates to whole seconds (its output on `s`
equals its output on `⌊s⌋`), renders hours as `⌊s⌋ / 3600` — unbounded, not
wrapped at 24 — with minutes and seconds in 0–59, each field zero-padded to
width 2 by `padStart2`; concretely `formatTime 0 = "00:00:00"`,
`formatTime 3661 = "01:01:01"`, and `formatTime 360000 = "100:00:00"`, the
hours field growing to 3 digits without truncation. -/
theorem formatTime_spec (s : ℚ) (hs : 0 ≤ s) :
    formatTime s = formatTime ((⌊s⌋ : ℤ) : ℚ)
      ∧ formatTime s = padStart2 (toString (fmtHours s)) ++ ":"
          ++ padStart2 (toString (fmtMinutes s)) ++ ":"
          ++ padStart2 (toString (fmtSecs s))
      ∧ fmtHours s = ⌊s⌋ / 3600
      ∧ 0 ≤ fmtHours s
      ∧ 0 ≤ fmtMinutes s ∧ fmtMinutes s ≤ 59
      ∧ 0 ≤ fmtSecs s ∧ fmtSecs s ≤ 59
      ∧ formatTime 0 = "00:00:00"
      ∧ formatTime 3661 = "01:01:01"
      ∧ formatTime 360000 = "100:00:00" := by
  refine ⟨?_, formatTime_eq s, floor_div_3600 s, fmtHours_nonneg hs,
    (fmtMinutes_bounds hs).1, (fmtMinutes_bounds hs).2,
    (fmtSecs_bounds hs).1, (fmtSecs_bounds hs).2,
    formatTime_zero, formatTime_3661, formatTime_360000⟩
  rw [formatTime_eq s, formatTime_eq ((⌊s⌋ : ℤ) : ℚ), fmtHours_trunc s,
    fmtMinutes_trunc hs, fmtSecs_trunc hs]

/-- C5 witness: the spec applied at 3661 seconds. -/
theorem formatTime_spec_witness :
    formatTime 3661 = formatTime ((⌊(3661:ℚ)⌋ : ℤ) : ℚ)
      ∧ fmtMinutes 3661 ≤ 59 :=
  ⟨(formatTime_spec 3661 (by norm_num)).1,
   (formatTime_spec 3661 (by norm_num)).2.2.2.2.2.1⟩
